import Mathlib

/-!
# Verification of the `pred-ripper` ingestion engine

Shallow embedding of `src/main.rs` (and the `PredecessorMatch` record of
`src/models.rs`): window generation, the cursor-paginated per-window fetch
loop, cooperative cancellation, the persistence step and the final archive
step.  Timestamps are modelled as natural numbers (the `u64` epochs of the
source, with arithmetic on ℕ).  External effects are modelled explicitly:

* the wall clock read (`chrono::Utc::now`) becomes a `now` parameter;
* one HTTP round trip (`get_matches_since`) is modelled by an
  `HttpResponse` input, and a per-window pagination run consumes a list of
  fetch results, the i-th element being the response to the i-th fetch the
  loop issues;
* the chrono timestamp parser used by `human_to_unix_epoch` becomes a
  parameter `chronoParse : String → Option Nat` (`none` models a parse
  failure, on which the source's `.unwrap()` panics);
* filesystem writes are modelled by success/failure oracles, and the
  `matches` directory by a list of file names.
-/

namespace PredRipper

/-- Constant `WINDOW_SIZE: u64 = 3600` of `main.rs`. -/
def WINDOW_SIZE : Nat := 3600

/-- Constant `FIRST_EPOCH: u64 = 1669882894` of `main.rs`. -/
def FIRST_EPOCH : Nat := 1669882894

/-- Constant `POOL_SIZE: u64 = 10` of `main.rs`. -/
def POOL_SIZE : Nat := 10

/-- Struct `WorkWindow` of `main.rs`. -/
structure WorkWindow where
  start_epoch : Nat
  end_epoch : Nat
deriving DecidableEq

/-- Function `generate_work_window` of `main.rs` (lines 34–39). -/
def generate_work_window (starting_epoch : Nat) : WorkWindow :=
  { start_epoch := starting_epoch, end_epoch := starting_epoch + WINDOW_SIZE }

/-- Function `generate_work_windows` of `main.rs` (lines 41–55), with the
clock read `chrono::Utc::now()` made an explicit parameter `now`.  The
source loop pushes `generate_work_window s` and advances `s` to its end
epoch as long as that end epoch is `< now`; written recursively. -/
def generate_work_windows (starting_epoch now : Nat) : List WorkWindow :=
  if h : (generate_work_window starting_epoch).end_epoch < now then
    generate_work_window starting_epoch ::
      generate_work_windows ((generate_work_window starting_epoch).end_epoch) now
  else
    []
termination_by now - starting_epoch
decreasing_by
  simp only [generate_work_window, WINDOW_SIZE] at h ⊢
  omega

/-- Number of windows `generate_work_windows` emits (auxiliary, used to
state the closed form of the generated list). -/
def gcount (starting_epoch now : Nat) : Nat :=
  if h : starting_epoch + WINDOW_SIZE < now then
    gcount (starting_epoch + WINDOW_SIZE) now + 1
  else
    0
termination_by now - starting_epoch
decreasing_by
  simp only [WINDOW_SIZE] at h ⊢
  omega

theorem generate_work_windows_unfold (s now : Nat) :
    generate_work_windows s now =
      if s + WINDOW_SIZE < now then
        WorkWindow.mk s (s + WINDOW_SIZE) :: generate_work_windows (s + WINDOW_SIZE) now
      else [] := by
  rw [generate_work_windows]
  simp [generate_work_window]

theorem gcount_unfold (s now : Nat) :
    gcount s now = if s + WINDOW_SIZE < now then gcount (s + WINDOW_SIZE) now + 1 else 0 := by
  rw [gcount]
  simp

theorem generate_work_windows_closed_form_aux (now m : Nat) :
    ∀ s, now - s ≤ m →
      generate_work_windows s now =
        (List.range (gcount s now)).map
          (fun j => WorkWindow.mk (s + WINDOW_SIZE * j) (s + WINDOW_SIZE * j + WINDOW_SIZE)) := by
  induction m with
  | zero =>
    intro s hs
    rw [generate_work_windows_unfold, gcount_unfold]
    have hns : ¬ s + WINDOW_SIZE < now := by
      simp only [WINDOW_SIZE]; omega
    simp [hns]
  | succ m ih =>
    intro s hs
    rw [generate_work_windows_unfold, gcount_unfold]
    by_cases h : s + WINDOW_SIZE < now
    · have hrec := ih (s + WINDOW_SIZE) (by simp only [WINDOW_SIZE] at h ⊢; omega)
      simp only [h, if_true, hrec, List.range_succ_eq_map, List.map_cons, List.map_map]
      refine List.cons_eq_cons.mpr ⟨by simp, ?_⟩
      apply List.map_congr_left
      intro j _
      simp only [Function.comp_apply, WorkWindow.mk.injEq, Nat.succ_eq_add_one]
      constructor <;> ring
    · simp [h]

/-- Closed form of the generated window list: `gcount` many contiguous
windows of width `WINDOW_SIZE`, starting at `starting_epoch`. -/
theorem generate_work_windows_closed_form (s now : Nat) :
    generate_work_windows s now =
      (List.range (gcount s now)).map
        (fun j => WorkWindow.mk (s + WINDOW_SIZE * j) (s + WINDOW_SIZE * j + WINDOW_SIZE)) :=
  generate_work_windows_closed_form_aux now (now - s) s le_rfl

/-- Position `i` of the generated window list, in closed form. -/
theorem generate_work_windows_index (s now i : Nat) :
    (generate_work_windows s now)[i]? =
      if i < gcount s now then
        some (WorkWindow.mk (s + WINDOW_SIZE * i) (s + WINDOW_SIZE * i + WINDOW_SIZE))
      else none := by
  rw [generate_work_windows_closed_form, List.getElem?_map]
  by_cases h : i < gcount s now
  · rw [List.getElem?_range h]
    simp [h]
  · rw [List.getElem?_eq_none (by simp only [List.length_range]; omega)]
    simp [h]

/-- C2: window generation produces an ordered sequence in which every window
has `end_epoch = start_epoch + WINDOW_SIZE`, consecutive windows are
contiguous, the first window starts at the starting epoch, and the sequence
is empty if and only if `starting_epoch + WINDOW_SIZE ≥ now`. -/
theorem c2_window_generation (s now : Nat) :
    (∀ w ∈ generate_work_windows s now, w.end_epoch = w.start_epoch + WINDOW_SIZE) ∧
    (∀ i w1 w2, (generate_work_windows s now)[i]? = some w1 →
      (generate_work_windows s now)[i + 1]? = some w2 →
      w2.start_epoch = w1.end_epoch) ∧
    (∀ w, (generate_work_windows s now).head? = some w → w.start_epoch = s) ∧
    (generate_work_windows s now = [] ↔ s + WINDOW_SIZE ≥ now) := by
  refine ⟨?_, ?_, ?_, ?_⟩
  · intro w hw
    rw [generate_work_windows_closed_form] at hw
    obtain ⟨j, _, rfl⟩ := List.mem_map.mp hw
    rfl
  · intro i w1 w2 h1 h2
    rw [generate_work_windows_index] at h1 h2
    by_cases hi : i < gcount s now
    · by_cases hi1 : i + 1 < gcount s now
      · rw [if_pos hi] at h1
        rw [if_pos hi1] at h2
        obtain rfl := Option.some_injective _ h1
        obtain rfl := Option.some_injective _ h2
        simp only [WorkWindow.mk.injEq]
        ring
      · rw [if_neg hi1] at h2
        exact absurd h2 (by simp)
    · rw [if_neg hi] at h1
      exact absurd h1 (by simp)
  · intro w hw
    rw [List.head?_eq_getElem?, generate_work_windows_index] at hw
    by_cases h0 : 0 < gcount s now
    · rw [if_pos h0] at hw
      obtain rfl := Option.some_injective _ hw
      simp
    · rw [if_neg h0] at hw
      exact absurd hw (by simp)
  · rw [generate_work_windows_closed_form]
    rw [gcount_unfold]
    by_cases h : s + WINDOW_SIZE < now
    · simp only [h, if_true]
      constructor
      · intro habs
        simp [List.range_succ_eq_map] at habs
      · intro hge
        omega
    · simp only [h, if_false]
      constructor
      · intro _
        omega
      · intro _
        simp

/-- Helper evaluation: the generated windows for the C2 witness scenario. -/
theorem generate_work_windows_eval_small :
    generate_work_windows 0 7301 = [WorkWindow.mk 0 3600, WorkWindow.mk 3600 7200] := by
  have h2 : generate_work_windows 7200 7301 = [] := by
    rw [generate_work_windows_unfold]
    norm_num [WINDOW_SIZE]
  have h1 : generate_work_windows 3600 7301 = [WorkWindow.mk 3600 7200] := by
    rw [generate_work_windows_unfold]
    norm_num [WINDOW_SIZE, h2]
  rw [generate_work_windows_unfold]
  norm_num [WINDOW_SIZE, h1]

/-- Witness for C2 at the concrete input `s = 0, now = 7301`. -/
theorem c2_window_generation_witness :
    (WorkWindow.mk 3600 7200).end_epoch = (WorkWindow.mk 3600 7200).start_epoch + WINDOW_SIZE ∧
    (WorkWindow.mk 3600 7200).start_epoch = (WorkWindow.mk 0 3600).end_epoch ∧
    (WorkWindow.mk 0 3600).start_epoch = 0 ∧
    (generate_work_windows 7200 3600 = [] ↔ 7200 + WINDOW_SIZE ≥ 3600) := by
  refine ⟨?_, ?_, ?_, ?_⟩
  · exact (c2_window_generation 0 7301).1 (WorkWindow.mk 3600 7200)
      (by rw [generate_work_windows_eval_small]; simp)
  · exact (c2_window_generation 0 7301).2.1 0 (WorkWindow.mk 0 3600) (WorkWindow.mk 3600 7200)
      (by rw [generate_work_windows_eval_small]; rfl) (by rw [generate_work_windows_eval_small]; rfl)
  · exact (c2_window_generation 0 7301).2.2.1 (WorkWindow.mk 0 3600)
      (by rw [generate_work_windows_eval_small]; rfl)
  · exact (c2_window_generation 7200 3600).2.2.2

/-- Helper evaluation: the generated windows for the C3 scenario
(`startEpoch = 1669882894`, `now = startEpoch + 7200`). -/
theorem generate_work_windows_eval_c3 :
    generate_work_windows 1669882894 (1669882894 + 7200) = [WorkWindow.mk 1669882894 1669886494] := by
  have h2 : generate_work_windows 1669886494 (1669882894 + 7200) = [] := by
    rw [generate_work_windows_unfold]
    norm_num [WINDOW_SIZE]
  rw [generate_work_windows_unfold]
  norm_num [WINDOW_SIZE, h2]

/-- C3 counterexample: at `startEpoch = 1669882894, now = startEpoch + 7200`
the generated sequence is NOT the claimed two-window list: the second
window's end epoch would equal `now`, and the source only emits a window
whose end epoch is strictly below `now`. -/
theorem c3_counterexample :
    generate_work_windows 1669882894 (1669882894 + 7200) ≠
      [WorkWindow.mk 1669882894 1669886494, WorkWindow.mk 1669886494 1669890094] := by
  rw [generate_work_windows_eval_c3]
  simp

/-- C3 amended: the input `startEpoch = 1669882894, windowSize = 3600,
now = startEpoch + 7200` yields exactly ONE window, `[1669882894, 1669886494]`
(the would-be second window `[1669886494, 1669890094]` has its end equal to
`now`, so the generation loop stops without emitting it). -/
theorem c3_amended :
    generate_work_windows 1669882894 (1669882894 + 7200) =
      [WorkWindow.mk 1669882894 1669886494] :=
  generate_work_windows_eval_c3

/-- Struct `PredecessorMatch` of `src/models.rs`.  The engine reads exactly
one field of a record — its `end_time` string (parsed by
`human_to_unix_epoch` for cursor advancement and batch naming); every other
field is opaque payload that is persisted untouched, so only `end_time` is
carried in the embedding. -/
structure PredecessorMatch where
  end_time : String
deriving DecidableEq

/-- Result of one HTTP round trip of `get_matches_since` (`main.rs` lines
61–74): the status code of the response, and the result of deserializing
its body as `Vec<PredecessorMatch>` (`none` models a `serde` parse
failure of the body). -/
structure HttpResponse where
  status : Nat
  body : Option (List PredecessorMatch)

/-- Error values `get_matches_since` can return: the propagated `serde`
error from `response.json()?`, or the `io::Error` built from the
`format!("Error getting matches for epoch {}", epoch)` message. -/
inductive FetchError where
  | jsonError : FetchError
  | httpError : String → FetchError
deriving DecidableEq

/-- Whether `response.status().is_success()` holds: a 2xx status. -/
def is_success (status : Nat) : Bool :=
  decide (200 ≤ status ∧ status < 300)

/-- Function `get_matches_since` of `main.rs` (lines 61–74), with the HTTP
round trip made an explicit `HttpResponse` input.  On a 2xx status the
parsed body is returned (a body parse failure propagates as an error via
`?`); on any other status the function returns the `io::Error` whose
message is `format!("Error getting matches for epoch {}", epoch)`. -/
def get_matches_since (epoch : Nat) (resp : HttpResponse) :
    Except FetchError (List PredecessorMatch) :=
  if is_success resp.status then
    match resp.body with
    | some body_matches => .ok body_matches
    | none => .error .jsonError
  else
    .error (.httpError ("Error getting matches for epoch " ++ toString epoch))

/-- Result of one call to `save_matches` (`main.rs` lines 96–116).
`panicEmpty` models the `.unwrap()` panic of `matches.first()` /
`matches.last()` on an empty batch; `panicParse` models the `.unwrap()`
panic inside `human_to_unix_epoch` when an end-time string fails chrono
parsing; `ioErr` models an `Err` from `File::create`/`serde_json` being
propagated by `?`; `saved f l` is the successful save of the batch keyed
by `(f, l)` (the file `matches/{f}-{l}.json`). -/
inductive SaveResult where
  | panicEmpty : SaveResult
  | panicParse : SaveResult
  | ioErr : SaveResult
  | saved : Nat → Nat → SaveResult
deriving DecidableEq

/-- Function `save_matches` of `main.rs` (lines 96–116).  `chronoParse`
models `NaiveDateTime::parse_from_str(_, "%Y-%m-%d %H:%M:%S")` composed
with `.timestamp()` (the body of `human_to_unix_epoch`, lines 80–83);
`persistOk` models whether the `File::create`/`serde_json::to_writer`
calls succeed. -/
def save_matches (chronoParse : String → Option Nat) (persistOk : Bool)
    (matchList : List PredecessorMatch) : SaveResult :=
  match matchList.head? with
  | none => .panicEmpty
  | some firstM =>
    match matchList.getLast? with
    | none => .panicEmpty
    | some lastM =>
      match chronoParse firstM.end_time with
      | none => .panicParse
      | some first_match_endtime_epoch =>
        match chronoParse lastM.end_time with
        | none => .panicParse
        | some last_match_endtime_epoch =>
          if persistOk then .saved first_match_endtime_epoch last_match_endtime_epoch
          else .ioErr

/-- Parse of the first record's end time of a batch (used for batch naming). -/
def firstEpoch? (chronoParse : String → Option Nat)
    (matchList : List PredecessorMatch) : Option Nat :=
  matchList.head?.bind (fun m => chronoParse m.end_time)

/-- Parse of the last record's end time of a batch (used for batch naming
and cursor advancement). -/
def lastEpoch? (chronoParse : String → Option Nat)
    (matchList : List PredecessorMatch) : Option Nat :=
  matchList.getLast?.bind (fun m => chronoParse m.end_time)

/-- Outcome of one fetch call as seen by the pagination loop (`main.rs`
line 169): an `Err` of any kind, or an `Ok` batch. -/
inductive FetchResult where
  | err : FetchResult
  | ok : List PredecessorMatch → FetchResult
deriving DecidableEq

/-- Terminal state of one window's pagination loop
(`get_matches_for_work_window`, `main.rs` lines 154–197).
`cancelled`: loop-top break on the cancellation flag (line 165);
`exhausted`: break on an empty batch (line 184);
`failed`: break on a fetch error (line 192);
`panicked`: a panic inside `save_matches`/`human_to_unix_epoch` unwound
the worker; `saveErr`: `save_matches(..)?` returned `Err`, so the function
returned `Err`; `outOfTrace`: the supplied finite fetch trace ran out
before the loop terminated (no source counterpart — traces in theorems are
always long enough). -/
inductive Outcome where
  | cancelled : Outcome
  | exhausted : Outcome
  | failed : Outcome
  | panicked : Outcome
  | saveErr : Outcome
  | outOfTrace : Outcome
deriving DecidableEq

/-- Observable result of one run of `get_matches_for_work_window`:
the terminal state, the cursor value at each issued fetch (in order),
the successfully saved batches with their keys (in order), every batch
passed to `save_matches` (in order), and the final cursor. -/
structure LoopResult where
  outcome : Outcome
  fetchEpochs : List Nat
  saved : List (Nat × Nat × List PredecessorMatch)
  saveCalls : List (List PredecessorMatch)
  cursor : Nat
deriving DecidableEq

/-- Function `get_matches_for_work_window` of `main.rs` (lines 154–197),
with effects made explicit: `cancel i` is the value the cancellation flag
is observed to hold at the top of iteration `i` (line 164), `persistOk i`
is whether the filesystem write inside `save_matches` succeeds at
iteration `i`, and the `trace` list carries the outcome of each successive
`get_matches_since` call.  Iteration structure follows the source loop:
loop-top flag check, one fetch, then either break (error/empty) or
`save_matches` followed by the cursor assignment
`current_epoch = human_to_unix_epoch(&matches.last().unwrap().end_time)`. -/
def run_window (chronoParse : String → Option Nat) (cancel : Nat → Bool)
    (persistOk : Nat → Bool) : Nat → Nat → List FetchResult → LoopResult
  | i, current_epoch, trace =>
    if cancel i then
      { outcome := .cancelled, fetchEpochs := [], saved := [], saveCalls := [],
        cursor := current_epoch }
    else
      match trace with
      | [] =>
        { outcome := .outOfTrace, fetchEpochs := [], saved := [], saveCalls := [],
          cursor := current_epoch }
      | .err :: _ =>
        { outcome := .failed, fetchEpochs := [current_epoch], saved := [],
          saveCalls := [], cursor := current_epoch }
      | .ok [] :: _ =>
        { outcome := .exhausted, fetchEpochs := [current_epoch], saved := [],
          saveCalls := [], cursor := current_epoch }
      | .ok (m :: ms) :: rest =>
        match save_matches chronoParse (persistOk i) (m :: ms) with
        | .panicEmpty =>
          { outcome := .panicked, fetchEpochs := [current_epoch], saved := [],
            saveCalls := [m :: ms], cursor := current_epoch }
        | .panicParse =>
          { outcome := .panicked, fetchEpochs := [current_epoch], saved := [],
            saveCalls := [m :: ms], cursor := current_epoch }
        | .ioErr =>
          { outcome := .saveErr, fetchEpochs := [current_epoch], saved := [],
            saveCalls := [m :: ms], cursor := current_epoch }
        | .saved f l =>
          let r' := run_window chronoParse cancel persistOk (i + 1) l rest
          { outcome := r'.outcome, fetchEpochs := current_epoch :: r'.fetchEpochs,
            saved := (f, l, m :: ms) :: r'.saved,
            saveCalls := (m :: ms) :: r'.saveCalls, cursor := r'.cursor }

/-- Dispatch loop of `main` (`main.rs` lines 230–236): for each window, the
flag is read once before dispatch (`dispatchCancel w` for the window at
position `w`); if it reads set the window is skipped (`none`), otherwise
`get_matches_for_work_window` runs with the window's own flag reads,
persistence oracle and fetch trace.  `rayon`'s `par_iter().for_each`
runs the windows independently with no shared mutable state besides the
flag, so the per-window results are those of this pointwise map. -/
def run_all (chronoParse : String → Option Nat) (dispatchCancel : Nat → Bool)
    (cancel : Nat → Nat → Bool) (persistOk : Nat → Nat → Bool)
    (traces : Nat → List FetchResult) :
    Nat → List WorkWindow → List (Option LoopResult)
  | _, [] => []
  | w, win :: rest =>
    (if dispatchCancel w then none
     else some (run_window chronoParse (cancel w) (persistOk w) 0
       win.start_epoch (traces w))) ::
      run_all chronoParse dispatchCancel cancel persistOk traces (w + 1) rest

/-- Whether a window's worker unwound with a panic: a chrono `.unwrap()`
panic inside the loop (`panicked`), or `get_matches_for_work_window`
returning `Err` which the closure at `main.rs` line 233 `.unwrap()`s
(`saveErr`).  Either panic propagates through
`pool.install`/`par_iter().for_each` to `main`. -/
def worker_panics (r : Option LoopResult) : Bool :=
  match r with
  | none => false
  | some res => res.outcome = Outcome.panicked ∨ res.outcome = Outcome.saveErr

/-- File name `format!("matches/{}-{}.json", first, last)` used by
`save_matches` (`main.rs` lines 100–103). -/
def file_name (first_match_endtime_epoch last_match_endtime_epoch : Nat) : String :=
  "matches/" ++ toString first_match_endtime_epoch ++ "-"
    ++ toString last_match_endtime_epoch ++ ".json"

/-- Files a dispatched window's loop wrote into the `matches` directory. -/
def saved_files (r : Option LoopResult) : List String :=
  match r with
  | none => []
  | some res => res.saved.map fun t => file_name t.1 t.2.1

/-- Startup filesystem step of `main` (`main.rs` lines 207–211): if the
`matches` directory exists (`some` prior contents) it is removed with
`remove_dir_all`, then `create_dir_all` recreates it; either way the
directory afterwards exists and is empty. -/
def startup_matches_dir (prior : Option (List String)) : List String :=
  match prior with
  | some _ => []
  | none => []

/-- Outcome of a whole run of `main` (`main.rs` lines 204–242): either the
worker pool drained without a panic and `zip_matches` archived the final
contents of the `matches` directory, or a worker's panic propagated
through `pool.install` and `main` unwound before reaching `zip_matches`. -/
inductive MainResult where
  | panicked : List String → MainResult
  | archived : List String → MainResult
deriving DecidableEq

/-- Function `main` of `main.rs` (lines 204–242), effects made explicit:
reset the `matches` directory, run every window through the pool
(`run_all`), and then — unless some worker panicked — archive the
directory contents (`zip_matches` walks exactly the files under
`matches/`).  `windows` is passed as a parameter; `main` instantiates it
with `generate_work_windows FIRST_EPOCH now`. -/
def run_main (chronoParse : String → Option Nat) (dispatchCancel : Nat → Bool)
    (cancel : Nat → Nat → Bool) (persistOk : Nat → Nat → Bool)
    (traces : Nat → List FetchResult) (windows : List WorkWindow)
    (prior : Option (List String)) : MainResult :=
  let results := run_all chronoParse dispatchCancel cancel persistOk traces 0 windows
  let store := startup_matches_dir prior ++ (results.map saved_files).flatten
  if results.any worker_panics then .panicked store else .archived store

/-- Concrete chrono parse table used by witnesses and counterexamples: it
agrees with `NaiveDateTime::parse_from_str(_, "%Y-%m-%d %H:%M:%S")` +
`.timestamp()` on the listed strings, and the remaining strings used in
examples (such as `"not a timestamp"`) genuinely fail that parse. -/
def chronoP (s : String) : Option Nat :=
  if s = "1970-01-01 00:00:50" then some 50
  else if s = "1970-01-01 00:01:40" then some 100
  else if s = "1970-01-01 00:02:00" then some 120
  else if s = "1970-01-01 00:03:20" then some 200
  else none

theorem save_matches_saved_iff (chronoParse : String → Option Nat) (persistOk : Bool)
    (b : List PredecessorMatch) (f l : Nat) :
    save_matches chronoParse persistOk b = SaveResult.saved f l ↔
      firstEpoch? chronoParse b = some f ∧ lastEpoch? chronoParse b = some l ∧
        persistOk = true := by
  unfold save_matches firstEpoch? lastEpoch?
  cases hh : b.head? with
  | none => simp
  | some firstM =>
    cases hg : b.getLast? with
    | none => simp
    | some lastM =>
      cases hpf : chronoParse firstM.end_time with
      | none => simp [hpf]
      | some f' =>
        cases hpl : chronoParse lastM.end_time with
        | none => simp [hpf, hpl]
        | some l' =>
          by_cases hpo : persistOk <;> simp [hpf, hpl, hpo]

theorem save_matches_parse_failure (chronoParse : String → Option Nat) (persistOk : Bool)
    (b : List PredecessorMatch) (hne : b ≠ [])
    (hfail : firstEpoch? chronoParse b = none ∨ lastEpoch? chronoParse b = none) :
    save_matches chronoParse persistOk b = SaveResult.panicParse := by
  obtain ⟨m, ms, rfl⟩ := List.exists_cons_of_ne_nil hne
  unfold save_matches
  simp only [List.head?_cons]
  cases hg : (m :: ms).getLast? with
  | none =>
    exact absurd (List.getLast?_eq_none_iff.mp hg) (by simp)
  | some lastM =>
    simp only [firstEpoch?, lastEpoch?, List.head?_cons, hg, Option.some_bind] at hfail
    cases hpf : chronoParse m.end_time with
    | none => simp [hpf]
    | some f' =>
      cases hpl : chronoParse lastM.end_time with
      | none => simp [hpf, hpl]
      | some l' =>
        rw [hpf, hpl] at hfail
        simp at hfail

theorem c1_aux (chronoParse : String → Option Nat) :
    ∀ (batches : List (List PredecessorMatch)) (i start : Nat),
      (∀ b ∈ batches, b ≠ []) →
      (∀ b ∈ batches,
        (firstEpoch? chronoParse b).isSome ∧ (lastEpoch? chronoParse b).isSome) →
      run_window chronoParse (fun _ => false) (fun _ => true) i start
          (batches.map FetchResult.ok ++ [FetchResult.ok []]) =
        { outcome := .exhausted,
          fetchEpochs := start :: batches.map (fun b => (lastEpoch? chronoParse b).getD 0),
          saved := batches.map (fun b =>
            ((firstEpoch? chronoParse b).getD 0, (lastEpoch? chronoParse b).getD 0, b)),
          saveCalls := batches,
          cursor := (batches.map (fun b => (lastEpoch? chronoParse b).getD 0)).getLastD start } := by
  intro batches
  induction batches with
  | nil =>
    intro i start _ _
    simp [run_window]
  | cons b bs ih =>
    intro i start hne hparse
    obtain ⟨m, ms, rfl⟩ := List.exists_cons_of_ne_nil (hne b (by simp))
    obtain ⟨hf, hl⟩ := hparse (m :: ms) (by simp)
    rw [Option.isSome_iff_exists] at hf hl
    obtain ⟨f, hf⟩ := hf
    obtain ⟨l, hl⟩ := hl
    have hsave : save_matches chronoParse true (m :: ms) = SaveResult.saved f l :=
      (save_matches_saved_iff chronoParse true (m :: ms) f l).mpr ⟨hf, hl, rfl⟩
    have hihyp := ih (i + 1) l (fun b hb => hne b (by simp [hb]))
      (fun b hb => hparse b (by simp [hb]))
    simp only [List.map_cons, List.cons_append]
    rw [run_window]
    simp only [if_false, Bool.false_eq_true, hsave, hihyp, hf, hl, Option.getD_some,
      List.map_cons, List.getLastD_cons]

/-- C1: for a window whose fetch sequence is `n` non-empty batches followed
by one empty batch, with no cancellation, every persist succeeding, and
every batch's first/last end time parseable, the pagination loop of
`get_matches_for_work_window` issues exactly `n + 1` fetches (one per
batch, at the cursor positions `start, l₁, …, lₙ`), persists exactly the
`n` batches — each keyed by the parses of its first and last record's end
time — sets the cursor after each persist to that batch's last record end
time (the next fetch is issued there), and terminates in the `Exhausted`
state (the empty-batch break of line 184). -/
theorem c1_pagination_exhausts (chronoParse : String → Option Nat) (start : Nat)
    (batches : List (List PredecessorMatch))
    (hne : ∀ b ∈ batches, b ≠ [])
    (hparse : ∀ b ∈ batches,
      (firstEpoch? chronoParse b).isSome ∧ (lastEpoch? chronoParse b).isSome) :
    run_window chronoParse (fun _ => false) (fun _ => true) 0 start
        (batches.map FetchResult.ok ++ [FetchResult.ok []]) =
      { outcome := .exhausted,
        fetchEpochs := start :: batches.map (fun b => (lastEpoch? chronoParse b).getD 0),
        saved := batches.map (fun b =>
          ((firstEpoch? chronoParse b).getD 0, (lastEpoch? chronoParse b).getD 0, b)),
        saveCalls := batches,
        cursor := (batches.map (fun b => (lastEpoch? chronoParse b).getD 0)).getLastD start } :=
  c1_aux chronoParse batches 0 start hne hparse

/-- Witness for C1: two concrete batches then an empty page give three
fetches at cursors `10, 50, 120`, two persisted batches keyed
`(50,50)` and `(100,120)`, and the `exhausted` outcome. -/
theorem c1_pagination_exhausts_witness :
    run_window chronoP (fun _ => false) (fun _ => true) 0 10
        ([[PredecessorMatch.mk "1970-01-01 00:00:50"],
          [PredecessorMatch.mk "1970-01-01 00:01:40",
           PredecessorMatch.mk "1970-01-01 00:02:00"]].map FetchResult.ok
          ++ [FetchResult.ok []]) =
      { outcome := .exhausted,
        fetchEpochs := [10, 50, 120],
        saved := [(50, 50, [PredecessorMatch.mk "1970-01-01 00:00:50"]),
          (100, 120, [PredecessorMatch.mk "1970-01-01 00:01:40",
            PredecessorMatch.mk "1970-01-01 00:02:00"])],
        saveCalls := [[PredecessorMatch.mk "1970-01-01 00:00:50"],
          [PredecessorMatch.mk "1970-01-01 00:01:40",
           PredecessorMatch.mk "1970-01-01 00:02:00"]],
        cursor := 120 } := by
  have h := c1_pagination_exhausts chronoP 10
    [[PredecessorMatch.mk "1970-01-01 00:00:50"],
     [PredecessorMatch.mk "1970-01-01 00:01:40",
      PredecessorMatch.mk "1970-01-01 00:02:00"]]
    (by decide) (by decide)
  simpa [chronoP, firstEpoch?, lastEpoch?] using h

theorem run_window_cancelled (chronoParse : String → Option Nat) (cancel persistOk : Nat → Bool)
    (i cur : Nat) (trace : List FetchResult) (hc : cancel i = true) :
    run_window chronoParse cancel persistOk i cur trace =
      { outcome := .cancelled, fetchEpochs := [], saved := [], saveCalls := [],
        cursor := cur } := by
  rw [run_window.eq_def]
  simp [hc]

theorem run_window_out_of_trace (chronoParse : String → Option Nat)
    (cancel persistOk : Nat → Bool) (i cur : Nat) (hc : cancel i = false) :
    run_window chronoParse cancel persistOk i cur [] =
      { outcome := .outOfTrace, fetchEpochs := [], saved := [], saveCalls := [],
        cursor := cur } := by
  rw [run_window.eq_def]
  simp [hc]

theorem run_window_failed (chronoParse : String → Option Nat) (cancel persistOk : Nat → Bool)
    (i cur : Nat) (rest : List FetchResult) (hc : cancel i = false) :
    run_window chronoParse cancel persistOk i cur (FetchResult.err :: rest) =
      { outcome := .failed, fetchEpochs := [cur], saved := [], saveCalls := [],
        cursor := cur } := by
  rw [run_window.eq_def]
  simp [hc]

theorem run_window_exhausted (chronoParse : String → Option Nat) (cancel persistOk : Nat → Bool)
    (i cur : Nat) (rest : List FetchResult) (hc : cancel i = false) :
    run_window chronoParse cancel persistOk i cur (FetchResult.ok [] :: rest) =
      { outcome := .exhausted, fetchEpochs := [cur], saved := [], saveCalls := [],
        cursor := cur } := by
  rw [run_window.eq_def]
  simp [hc]

theorem run_window_panic_parse (chronoParse : String → Option Nat) (cancel persistOk : Nat → Bool)
    (i cur : Nat) (m : PredecessorMatch) (ms : List PredecessorMatch) (rest : List FetchResult)
    (hc : cancel i = false)
    (hs : save_matches chronoParse (persistOk i) (m :: ms) = SaveResult.panicParse) :
    run_window chronoParse cancel persistOk i cur (FetchResult.ok (m :: ms) :: rest) =
      { outcome := .panicked, fetchEpochs := [cur], saved := [], saveCalls := [m :: ms],
        cursor := cur } := by
  rw [run_window.eq_def]
  simp [hc, hs]

theorem run_window_panic_empty (chronoParse : String → Option Nat) (cancel persistOk : Nat → Bool)
    (i cur : Nat) (m : PredecessorMatch) (ms : List PredecessorMatch) (rest : List FetchResult)
    (hc : cancel i = false)
    (hs : save_matches chronoParse (persistOk i) (m :: ms) = SaveResult.panicEmpty) :
    run_window chronoParse cancel persistOk i cur (FetchResult.ok (m :: ms) :: rest) =
      { outcome := .panicked, fetchEpochs := [cur], saved := [], saveCalls := [m :: ms],
        cursor := cur } := by
  rw [run_window.eq_def]
  simp [hc, hs]

theorem run_window_io_err (chronoParse : String → Option Nat) (cancel persistOk : Nat → Bool)
    (i cur : Nat) (m : PredecessorMatch) (ms : List PredecessorMatch) (rest : List FetchResult)
    (hc : cancel i = false)
    (hs : save_matches chronoParse (persistOk i) (m :: ms) = SaveResult.ioErr) :
    run_window chronoParse cancel persistOk i cur (FetchResult.ok (m :: ms) :: rest) =
      { outcome := .saveErr, fetchEpochs := [cur], saved := [], saveCalls := [m :: ms],
        cursor := cur } := by
  rw [run_window.eq_def]
  simp [hc, hs]

theorem run_window_step_saved (chronoParse : String → Option Nat) (cancel persistOk : Nat → Bool)
    (i cur f l : Nat) (m : PredecessorMatch) (ms : List PredecessorMatch)
    (rest : List FetchResult) (hc : cancel i = false)
    (hs : save_matches chronoParse (persistOk i) (m :: ms) = SaveResult.saved f l) :
    run_window chronoParse cancel persistOk i cur (FetchResult.ok (m :: ms) :: rest) =
      { outcome := (run_window chronoParse cancel persistOk (i + 1) l rest).outcome,
        fetchEpochs := cur ::
          (run_window chronoParse cancel persistOk (i + 1) l rest).fetchEpochs,
        saved := (f, l, m :: ms) ::
          (run_window chronoParse cancel persistOk (i + 1) l rest).saved,
        saveCalls := (m :: ms) ::
          (run_window chronoParse cancel persistOk (i + 1) l rest).saveCalls,
        cursor := (run_window chronoParse cancel persistOk (i + 1) l rest).cursor } := by
  conv_lhs => rw [run_window.eq_def]
  simp [hc, hs]

theorem run_all_index (chronoParse : String → Option Nat) (dispatchCancel : Nat → Bool)
    (cancel persistOk : Nat → Nat → Bool) (traces : Nat → List FetchResult) :
    ∀ (windows : List WorkWindow) (k j : Nat),
      (run_all chronoParse dispatchCancel cancel persistOk traces k windows)[j]? =
        windows[j]?.map (fun win =>
          if dispatchCancel (k + j) then none
          else some (run_window chronoParse (cancel (k + j)) (persistOk (k + j)) 0
            win.start_epoch (traces (k + j)))) := by
  intro windows
  induction windows with
  | nil =>
    intro k j
    simp [run_all]
  | cons win rest ih =>
    intro k j
    cases j with
    | zero =>
      simp [run_all]
    | succ j =>
      simp only [run_all, List.getElem?_cons_succ]
      rw [ih (k + 1) j]
      have hkj : k + 1 + j = k + (j + 1) := by omega
      rw [hkj]

theorem c4_aux (chronoParse : String → Option Nat) (cancel persistOk : Nat → Bool) :
    ∀ (trace : List FetchResult) (i cur : Nat),
      ((run_window chronoParse cancel persistOk i cur trace).fetchEpochs.length ≤
        (run_window chronoParse cancel persistOk i cur trace).saved.length + 1) ∧
      ((cur :: (run_window chronoParse cancel persistOk i cur trace).saved.map
          (fun t => t.2.1)).take
          (run_window chronoParse cancel persistOk i cur trace).fetchEpochs.length =
        (run_window chronoParse cancel persistOk i cur trace).fetchEpochs) ∧
      (∀ t ∈ (run_window chronoParse cancel persistOk i cur trace).saved,
        firstEpoch? chronoParse t.2.2 = some t.1 ∧
          lastEpoch? chronoParse t.2.2 = some t.2.1) := by
  intro trace
  induction trace with
  | nil =>
    intro i cur
    by_cases hc : cancel i
    · simp [run_window_cancelled chronoParse cancel persistOk i cur [] hc]
    · simp [run_window_out_of_trace chronoParse cancel persistOk i cur
        (Bool.not_eq_true _ ▸ hc)]
  | cons r rest ih =>
    intro i cur
    by_cases hc : cancel i
    · simp [run_window_cancelled chronoParse cancel persistOk i cur (r :: rest) hc]
    · have hc' : cancel i = false := by simpa using hc
      match r with
      | .err =>
        simp [run_window_failed chronoParse cancel persistOk i cur rest hc']
      | .ok [] =>
        simp [run_window_exhausted chronoParse cancel persistOk i cur rest hc']
      | .ok (m :: ms) =>
        cases hs : save_matches chronoParse (persistOk i) (m :: ms) with
        | panicEmpty =>
          simp [run_window_panic_empty chronoParse cancel persistOk i cur m ms rest hc' hs]
        | panicParse =>
          simp [run_window_panic_parse chronoParse cancel persistOk i cur m ms rest hc' hs]
        | ioErr =>
          simp [run_window_io_err chronoParse cancel persistOk i cur m ms rest hc' hs]
        | saved f l =>
          obtain ⟨hf, hl, _⟩ := (save_matches_saved_iff _ _ _ _ _).mp hs
          obtain ⟨ih1, ih2, ih3⟩ := ih (i + 1) l
          rw [run_window_step_saved chronoParse cancel persistOk i cur f l m ms rest hc' hs]
          refine ⟨by simpa using Nat.succ_le_succ ih1, ?_, ?_⟩
          · simpa using ih2
          · intro t ht
            rcases List.mem_cons.mp ht with h | h
            · subst h
              exact ⟨hf, hl⟩
            · exact ih3 t h

/-- C4 counterexample: the cursor does NOT advance strictly forward for
every possible sequence of fetched batches.  Starting the loop at cursor
`100`, a batch whose only record has end time `"1970-01-01 00:00:50"`
(epoch 50) is fetched and persisted, and the next fetch is issued at
cursor `50 < 100`: the cursor moved backwards. -/
theorem c4_counterexample :
    (run_window chronoP (fun _ => false) (fun _ => true) 0 100
        [FetchResult.ok [PredecessorMatch.mk "1970-01-01 00:00:50"],
         FetchResult.ok []]).saved =
      [(50, 50, [PredecessorMatch.mk "1970-01-01 00:00:50"])] ∧
    (run_window chronoP (fun _ => false) (fun _ => true) 0 100
        [FetchResult.ok [PredecessorMatch.mk "1970-01-01 00:00:50"],
         FetchResult.ok []]).fetchEpochs = [100, 50] ∧
    ¬ 100 < 50 := by
  refine ⟨?_, ?_, by omega⟩ <;> rfl

/-- C4 amended: the cursor is initialized to the window's start (the loop
for the window at position `w` is entered with cursor `win.start_epoch`),
and after every iteration that persists a non-empty batch the cursor is
SET TO that batch's last record's end-time parse — the sequence of cursors
at which fetches are issued is exactly `start` followed by the persisted
batches' last-record end times, with no strict-increase guarantee. -/
theorem c4_amended_cursor (chronoParse : String → Option Nat) (cancel persistOk : Nat → Bool)
    (trace : List FetchResult) (start : Nat) :
    ((run_window chronoParse cancel persistOk 0 start trace).fetchEpochs.length ≤
      (run_window chronoParse cancel persistOk 0 start trace).saved.length + 1) ∧
    ((start :: (run_window chronoParse cancel persistOk 0 start trace).saved.map
        (fun t => t.2.1)).take
        (run_window chronoParse cancel persistOk 0 start trace).fetchEpochs.length =
      (run_window chronoParse cancel persistOk 0 start trace).fetchEpochs) ∧
    (∀ t ∈ (run_window chronoParse cancel persistOk 0 start trace).saved,
      firstEpoch? chronoParse t.2.2 = some t.1 ∧
        lastEpoch? chronoParse t.2.2 = some t.2.1) ∧
    (∀ (dispatchCancel : Nat → Bool) (cancels persists : Nat → Nat → Bool)
        (traces : Nat → List FetchResult) (windows : List WorkWindow) (w : Nat)
        (win : WorkWindow), windows[w]? = some win → dispatchCancel w = false →
      (run_all chronoParse dispatchCancel cancels persists traces 0 windows)[w]? =
        some (some (run_window chronoParse (cancels w) (persists w) 0
          win.start_epoch (traces w)))) := by
  obtain ⟨h1, h2, h3⟩ := c4_aux chronoParse cancel persistOk trace 0 start
  refine ⟨h1, h2, h3, ?_⟩
  intro dispatchCancel cancels persists traces windows w win hwin hdc
  rw [run_all_index]
  simp [hwin, hdc]

/-- Witness for C4 (amended) at a concrete backwards-moving batch run. -/
theorem c4_amended_cursor_witness :
    ((run_window chronoP (fun _ => false) (fun _ => true) 0 100
        [FetchResult.ok [PredecessorMatch.mk "1970-01-01 00:00:50"],
         FetchResult.ok []]).fetchEpochs.length ≤
      (run_window chronoP (fun _ => false) (fun _ => true) 0 100
        [FetchResult.ok [PredecessorMatch.mk "1970-01-01 00:00:50"],
         FetchResult.ok []]).saved.length + 1) ∧
    firstEpoch? chronoP [PredecessorMatch.mk "1970-01-01 00:00:50"] = some 50 ∧
    (run_all chronoP (fun _ => false) (fun _ _ => false) (fun _ _ => true)
        (fun _ => [FetchResult.ok []]) 0 [WorkWindow.mk 7 3607])[0]? =
      some (some (run_window chronoP (fun _ => false) (fun _ => true) 0 7
        [FetchResult.ok []])) := by
  have h := c4_amended_cursor chronoP (fun _ => false) (fun _ => true)
    [FetchResult.ok [PredecessorMatch.mk "1970-01-01 00:00:50"], FetchResult.ok []] 100
  refine ⟨h.1, ?_, ?_⟩
  · exact (h.2.2.1 (50, 50, [PredecessorMatch.mk "1970-01-01 00:00:50"])
      (by decide)).1
  · exact h.2.2.2 (fun _ => false) (fun _ _ => false) (fun _ _ => true)
      (fun _ => [FetchResult.ok []]) [WorkWindow.mk 7 3607] 0 (WorkWindow.mk 7 3607)
      rfl rfl

theorem c5_no_fetch_after_cancel_aux (chronoParse : String → Option Nat)
    (cancel persistOk : Nat → Bool) :
    ∀ (trace : List FetchResult) (i cur j : Nat),
      j < (run_window chronoParse cancel persistOk i cur trace).fetchEpochs.length →
      cancel (i + j) = false := by
  intro trace
  induction trace with
  | nil =>
    intro i cur j hj
    by_cases hc : cancel i
    · rw [run_window_cancelled chronoParse cancel persistOk i cur [] hc] at hj
      simp at hj
    · rw [run_window_out_of_trace chronoParse cancel persistOk i cur
        (Bool.not_eq_true _ ▸ hc)] at hj
      simp at hj
  | cons r rest ih =>
    intro i cur j hj
    by_cases hc : cancel i
    · rw [run_window_cancelled chronoParse cancel persistOk i cur (r :: rest) hc] at hj
      simp at hj
    · have hc' : cancel i = false := by simpa using hc
      match r with
      | .err =>
        rw [run_window_failed chronoParse cancel persistOk i cur rest hc'] at hj
        simp at hj
        simpa [hj] using hc'
      | .ok [] =>
        rw [run_window_exhausted chronoParse cancel persistOk i cur rest hc'] at hj
        simp at hj
        simpa [hj] using hc'
      | .ok (m :: ms) =>
        cases hs : save_matches chronoParse (persistOk i) (m :: ms) with
        | panicEmpty =>
          rw [run_window_panic_empty chronoParse cancel persistOk i cur m ms rest hc' hs] at hj
          simp at hj
          simpa [hj] using hc'
        | panicParse =>
          rw [run_window_panic_parse chronoParse cancel persistOk i cur m ms rest hc' hs] at hj
          simp at hj
          simpa [hj] using hc'
        | ioErr =>
          rw [run_window_io_err chronoParse cancel persistOk i cur m ms rest hc' hs] at hj
          simp at hj
          simpa [hj] using hc'
        | saved f l =>
          rw [run_window_step_saved chronoParse cancel persistOk i cur f l m ms rest hc' hs]
            at hj
          simp only [List.length_cons] at hj
          cases j with
          | zero => simpa using hc'
          | succ j =>
            have := ih (i + 1) l j (by omega)
            simpa [Nat.add_assoc, Nat.add_comm 1 j] using this

/-- C5: cooperative cancellation.  First conjunct (dispatch check,
`main.rs` lines 231–235): if the flag reads set at a window's dispatch,
that window's loop is never started — its slot holds `none`, so zero
fetches are issued for it.  Second conjunct (loop-top check, lines
162–166): every fetch the loop issues happened at an iteration whose
loop-top flag read was `false`; equivalently, once the flag is observed
set at the top of an iteration, that loop issues no further fetch. -/
theorem c5_cancellation (chronoParse : String → Option Nat) :
    (∀ (dispatchCancel : Nat → Bool) (cancels persists : Nat → Nat → Bool)
        (traces : Nat → List FetchResult) (windows : List WorkWindow) (w : Nat)
        (win : WorkWindow), windows[w]? = some win → dispatchCancel w = true →
      (run_all chronoParse dispatchCancel cancels persists traces 0 windows)[w]? =
        some none) ∧
    (∀ (cancel persistOk : Nat → Bool) (trace : List FetchResult) (i cur j : Nat),
      j < (run_window chronoParse cancel persistOk i cur trace).fetchEpochs.length →
      cancel (i + j) = false) := by
  constructor
  · intro dispatchCancel cancels persists traces windows w win hwin hdc
    rw [run_all_index]
    simp [hwin, hdc]
  · intro cancel persistOk trace i cur j hj
    exact c5_no_fetch_after_cancel_aux chronoParse cancel persistOk trace i cur j hj

/-- Witness for C5: a pre-set flag skips the only window entirely, and in
a run whose flag becomes set at iteration 2, the fetch issued at
iteration 1 observed the flag unset. -/
theorem c5_cancellation_witness :
    (run_all chronoP (fun _ => true) (fun _ _ => false) (fun _ _ => true)
        (fun _ => [FetchResult.ok []]) 0 [WorkWindow.mk 0 3600])[0]? = some none ∧
    (fun i => decide (2 ≤ i)) (0 + 1) = false := by
  constructor
  · exact (c5_cancellation chronoP).1 (fun _ => true) (fun _ _ => false) (fun _ _ => true)
      (fun _ => [FetchResult.ok []]) [WorkWindow.mk 0 3600] 0 (WorkWindow.mk 0 3600)
      rfl rfl
  · exact (c5_cancellation chronoP).2 (fun i => decide (2 ≤ i)) (fun _ => true)
      [FetchResult.ok [PredecessorMatch.mk "1970-01-01 00:00:50"], FetchResult.ok []]
      0 7 1 (by decide)

theorem run_main_panicked (chronoParse : String → Option Nat) (dispatchCancel : Nat → Bool)
    (cancel persistOk : Nat → Nat → Bool) (traces : Nat → List FetchResult)
    (windows : List WorkWindow) (prior : Option (List String))
    (h : (run_all chronoParse dispatchCancel cancel persistOk traces 0 windows).any
      worker_panics = true) :
    run_main chronoParse dispatchCancel cancel persistOk traces windows prior =
      .panicked (startup_matches_dir prior ++
        ((run_all chronoParse dispatchCancel cancel persistOk traces 0 windows).map
          saved_files).flatten) := by
  simp [run_main, h]

theorem run_main_archived (chronoParse : String → Option Nat) (dispatchCancel : Nat → Bool)
    (cancel persistOk : Nat → Nat → Bool) (traces : Nat → List FetchResult)
    (windows : List WorkWindow) (prior : Option (List String))
    (h : (run_all chronoParse dispatchCancel cancel persistOk traces 0 windows).any
      worker_panics = false) :
    run_main chronoParse dispatchCancel cancel persistOk traces windows prior =
      .archived (startup_matches_dir prior ++
        ((run_all chronoParse dispatchCancel cancel persistOk traces 0 windows).map
          saved_files).flatten) := by
  simp [run_main, h]

/-- C6 counterexample: a record end-time string that fails the chrono
parse does NOT leave the rest of the run proceeding normally.  With a
single window whose first batch holds one record with end time
`"not a timestamp"`, the window's loop ends `panicked` (the `.unwrap()`
inside `human_to_unix_epoch` unwinds), the panic propagates through
`par_iter().for_each`/`pool.install`, and `main` unwinds BEFORE
`zip_matches`: the run result is `panicked`, not `archived`. -/
theorem c6_counterexample :
    (run_window chronoP (fun _ => false) (fun _ => true) 0 0
        [FetchResult.ok [PredecessorMatch.mk "not a timestamp"]]).outcome =
      Outcome.panicked ∧
    run_main chronoP (fun _ => false) (fun _ _ => false) (fun _ _ => true)
        (fun _ => [FetchResult.ok [PredecessorMatch.mk "not a timestamp"]])
        [WorkWindow.mk 0 3600] (some ["matches/1-2.json"]) =
      MainResult.panicked [] := by
  constructor
  · rfl
  · rfl

/-- C6 amended: a record end-time parse failure during batch naming /
cursor advancement panics that window's loop — the loop terminates at that
iteration with the `panicked` outcome, issuing no further fetch — and the
panic is fatal to the run as a whole: it propagates through the worker
pool, so `main` unwinds before the archive step instead of proceeding
normally. -/
theorem c6_parse_failure_panics (chronoParse : String → Option Nat) :
    (∀ (cancel persistOk : Nat → Bool) (i cur : Nat) (m : PredecessorMatch)
        (ms : List PredecessorMatch) (rest : List FetchResult),
      cancel i = false →
      (firstEpoch? chronoParse (m :: ms) = none ∨
        lastEpoch? chronoParse (m :: ms) = none) →
      run_window chronoParse cancel persistOk i cur (FetchResult.ok (m :: ms) :: rest) =
        { outcome := .panicked, fetchEpochs := [cur], saved := [],
          saveCalls := [m :: ms], cursor := cur }) ∧
    (∀ (dispatchCancel : Nat → Bool) (cancel persistOk : Nat → Nat → Bool)
        (traces : Nat → List FetchResult) (windows : List WorkWindow)
        (prior : Option (List String)),
      (run_all chronoParse dispatchCancel cancel persistOk traces 0 windows).any
        worker_panics = true →
      run_main chronoParse dispatchCancel cancel persistOk traces windows prior =
        .panicked (startup_matches_dir prior ++
          ((run_all chronoParse dispatchCancel cancel persistOk traces 0 windows).map
            saved_files).flatten)) := by
  constructor
  · intro cancel persistOk i cur m ms rest hc hfail
    exact run_window_panic_parse chronoParse cancel persistOk i cur m ms rest hc
      (save_matches_parse_failure chronoParse (persistOk i) (m :: ms) (by simp) hfail)
  · intro dispatchCancel cancel persistOk traces windows prior h
    exact run_main_panicked chronoParse dispatchCancel cancel persistOk traces windows prior h

/-- Witness for C6 (amended) at a one-window, one-bad-record run. -/
theorem c6_parse_failure_panics_witness :
    run_window chronoP (fun _ => false) (fun _ => true) 0 5
        [FetchResult.ok [PredecessorMatch.mk "not a timestamp"]] =
      { outcome := .panicked, fetchEpochs := [5], saved := [],
        saveCalls := [[PredecessorMatch.mk "not a timestamp"]], cursor := 5 } ∧
    run_main chronoP (fun _ => false) (fun _ _ => false) (fun _ _ => true)
        (fun _ => [FetchResult.ok [PredecessorMatch.mk "not a timestamp"]])
        [WorkWindow.mk 5 3605] none = MainResult.panicked [] := by
  constructor
  · exact (c6_parse_failure_panics chronoP).1 (fun _ => false) (fun _ => true) 0 5
      (PredecessorMatch.mk "not a timestamp") [] [] rfl (Or.inl (by decide))
  · have h := (c6_parse_failure_panics chronoP).2 (fun _ => false) (fun _ _ => false)
      (fun _ _ => true)
      (fun _ => [FetchResult.ok [PredecessorMatch.mk "not a timestamp"]])
      [WorkWindow.mk 5 3605] none (by decide)
    simpa using h

/-- C7: a fetch error is local to its window.  First conjunct: a loop
iteration that receives a fetch `Err` breaks with the `Failed` outcome
(the batch is not persisted, no further fetch is issued, and
`get_matches_for_work_window` returns `Ok(())`, not a panic).  Second
conjunct: per-window results are independent — changing the flag reads,
persistence oracle and fetch trace of window `w` alone leaves every other
window's result unchanged.  Third conjunct: when no worker panics (a
`failed` outcome never counts as a panic), the pool drains and `main`
proceeds to the archive step with the files saved by this run. -/
theorem c7_failed_window_is_local (chronoParse : String → Option Nat) :
    (∀ (cancel persistOk : Nat → Bool) (i cur : Nat) (rest : List FetchResult),
      cancel i = false →
      run_window chronoParse cancel persistOk i cur (FetchResult.err :: rest) =
        { outcome := .failed, fetchEpochs := [cur], saved := [], saveCalls := [],
          cursor := cur } ∧
      worker_panics (some (run_window chronoParse cancel persistOk i cur
        (FetchResult.err :: rest))) = false) ∧
    (∀ (dispatchCancel : Nat → Bool) (cancel cancel' persistOk persistOk' : Nat → Nat → Bool)
        (traces traces' : Nat → List FetchResult) (windows : List WorkWindow) (w j : Nat),
      (∀ v, v ≠ w → cancel v = cancel' v) →
      (∀ v, v ≠ w → persistOk v = persistOk' v) →
      (∀ v, v ≠ w → traces v = traces' v) →
      j ≠ w →
      (run_all chronoParse dispatchCancel cancel persistOk traces 0 windows)[j]? =
        (run_all chronoParse dispatchCancel cancel' persistOk' traces' 0 windows)[j]?) ∧
    (∀ (dispatchCancel : Nat → Bool) (cancel persistOk : Nat → Nat → Bool)
        (traces : Nat → List FetchResult) (windows : List WorkWindow)
        (prior : Option (List String)),
      (run_all chronoParse dispatchCancel cancel persistOk traces 0 windows).any
        worker_panics = false →
      run_main chronoParse dispatchCancel cancel persistOk traces windows prior =
        .archived (startup_matches_dir prior ++
          ((run_all chronoParse dispatchCancel cancel persistOk traces 0 windows).map
            saved_files).flatten)) := by
  refine ⟨?_, ?_, ?_⟩
  · intro cancel persistOk i cur rest hc
    have hres := run_window_failed chronoParse cancel persistOk i cur rest hc
    exact ⟨hres, by rw [hres]; rfl⟩
  · intro dispatchCancel cancel cancel' persistOk persistOk' traces traces' windows w j
      hcc hpk htr hj
    rw [run_all_index, run_all_index]
    rw [Nat.zero_add, hcc j hj, hpk j hj, htr j hj]
  · intro dispatchCancel cancel persistOk traces windows prior h
    exact run_main_archived chronoParse dispatchCancel cancel persistOk traces windows prior h

/-- Witness for C7: window 0 fails with a fetch error while window 1
exhausts; the failed window's result is independent of window 0's trace,
no worker panics, and the run archives window 1's saved batch. -/
theorem c7_failed_window_is_local_witness :
    (run_window chronoP (fun _ => false) (fun _ => true) 0 3600 [FetchResult.err] =
      { outcome := .failed, fetchEpochs := [3600], saved := [], saveCalls := [],
        cursor := 3600 } ∧
      worker_panics (some (run_window chronoP (fun _ => false) (fun _ => true) 0 3600
        [FetchResult.err])) = false) ∧
    (run_all chronoP (fun _ => false) (fun _ _ => false) (fun _ _ => true)
        (fun w => if w = 0 then [FetchResult.err] else [FetchResult.ok []]) 0
        [WorkWindow.mk 0 3600, WorkWindow.mk 3600 7200])[1]? =
      (run_all chronoP (fun _ => false) (fun _ _ => false) (fun _ _ => true)
        (fun w => if w = 0 then [FetchResult.ok []] else [FetchResult.ok []]) 0
        [WorkWindow.mk 0 3600, WorkWindow.mk 3600 7200])[1]? ∧
    run_main chronoP (fun _ => false) (fun _ _ => false) (fun _ _ => true)
        (fun w => if w = 0 then [FetchResult.err]
          else [FetchResult.ok [PredecessorMatch.mk "1970-01-01 00:01:40"],
            FetchResult.ok []]) [WorkWindow.mk 0 3600, WorkWindow.mk 3600 7200] none =
      MainResult.archived ["matches/100-100.json"] := by
  refine ⟨?_, ?_, ?_⟩
  · exact (c7_failed_window_is_local chronoP).1 (fun _ => false) (fun _ => true) 0 3600
      [FetchResult.err] rfl
  · exact (c7_failed_window_is_local chronoP).2.1 (fun _ => false) (fun _ _ => false)
      (fun _ _ => false) (fun _ _ => true) (fun _ _ => true)
      (fun w => if w = 0 then [FetchResult.err] else [FetchResult.ok []])
      (fun w => if w = 0 then [FetchResult.ok []] else [FetchResult.ok []])
      [WorkWindow.mk 0 3600, WorkWindow.mk 3600 7200] 0 1
      (fun _ _ => rfl) (fun _ _ => rfl) (fun v hv => by simp [hv]) (by decide)
  · have h := (c7_failed_window_is_local chronoP).2.2 (fun _ => false) (fun _ _ => false)
      (fun _ _ => true)
      (fun w => if w = 0 then [FetchResult.err]
        else [FetchResult.ok [PredecessorMatch.mk "1970-01-01 00:01:40"],
          FetchResult.ok []]) [WorkWindow.mk 0 3600, WorkWindow.mk 3600 7200] none
      (by decide)
    simpa using h

/-- C8 counterexample: the fetch error for a non-2xx response does NOT
carry the response's status code.  At epoch 5, a 404 response and a 500
response produce IDENTICAL error values — the `io::Error` whose message is
`"Error getting matches for epoch 5"` — so the error cannot determine
(hence does not carry) the status code. -/
theorem c8_counterexample :
    get_matches_since 5 (HttpResponse.mk 404 none) =
      get_matches_since 5 (HttpResponse.mk 500 none) ∧
    get_matches_since 5 (HttpResponse.mk 404 none) =
      Except.error (FetchError.httpError "Error getting matches for epoch 5") ∧
    (404 : Nat) ≠ 500 := by
  refine ⟨rfl, rfl, by omega⟩

/-- C8 amended: for every non-2xx response, `get_matches_since` returns an
error value that carries the requested epoch (embedded in the message
`"Error getting matches for epoch {epoch}"`); the response's status code
is NOT included in the error value. -/
theorem c8_non_2xx_error_carries_epoch (epoch : Nat) (resp : HttpResponse)
    (h : is_success resp.status = false) :
    get_matches_since epoch resp =
      Except.error (FetchError.httpError
        ("Error getting matches for epoch " ++ toString epoch)) := by
  unfold get_matches_since
  rw [h]
  simp

/-- Witness for C8 (amended) at epoch 7 and status 503. -/
theorem c8_non_2xx_error_carries_epoch_witness :
    get_matches_since 7 (HttpResponse.mk 503 (some [])) =
      Except.error (FetchError.httpError
        ("Error getting matches for epoch " ++ toString 7)) :=
  c8_non_2xx_error_carries_epoch 7 (HttpResponse.mk 503 (some [])) (by decide)

theorem c9_save_calls_nonempty_aux (chronoParse : String → Option Nat)
    (cancel persistOk : Nat → Bool) :
    ∀ (trace : List FetchResult) (i cur : Nat),
      ∀ b ∈ (run_window chronoParse cancel persistOk i cur trace).saveCalls, b ≠ [] := by
  intro trace
  induction trace with
  | nil =>
    intro i cur b hb
    by_cases hc : cancel i
    · rw [run_window_cancelled chronoParse cancel persistOk i cur [] hc] at hb
      simp at hb
    · rw [run_window_out_of_trace chronoParse cancel persistOk i cur
        (Bool.not_eq_true _ ▸ hc)] at hb
      simp at hb
  | cons r rest ih =>
    intro i cur b hb
    by_cases hc : cancel i
    · rw [run_window_cancelled chronoParse cancel persistOk i cur (r :: rest) hc] at hb
      simp at hb
    · have hc' : cancel i = false := by simpa using hc
      match r with
      | .err =>
        rw [run_window_failed chronoParse cancel persistOk i cur rest hc'] at hb
        simp at hb
      | .ok [] =>
        rw [run_window_exhausted chronoParse cancel persistOk i cur rest hc'] at hb
        simp at hb
      | .ok (m :: ms) =>
        cases hs : save_matches chronoParse (persistOk i) (m :: ms) with
        | panicEmpty =>
          rw [run_window_panic_empty chronoParse cancel persistOk i cur m ms rest hc' hs]
            at hb
          simp only [List.mem_singleton] at hb
          simp [hb]
        | panicParse =>
          rw [run_window_panic_parse chronoParse cancel persistOk i cur m ms rest hc' hs]
            at hb
          simp only [List.mem_singleton] at hb
          simp [hb]
        | ioErr =>
          rw [run_window_io_err chronoParse cancel persistOk i cur m ms rest hc' hs] at hb
          simp only [List.mem_singleton] at hb
          simp [hb]
        | saved f l =>
          rw [run_window_step_saved chronoParse cancel persistOk i cur f l m ms rest hc' hs]
            at hb
          rcases List.mem_cons.mp hb with h | h
          · simp [h]
          · exact ih (i + 1) l b h

/-- C9: the loop only ever hands `save_matches` a non-empty batch — the
`matches.len() > 0` guard at line 173 precedes the call at line 180 — and
on a non-empty batch the `matches.first().unwrap()` / `matches.last().unwrap()`
extractions inside `save_matches` never hit their panic branch. -/
theorem c9_save_matches_never_empty (chronoParse : String → Option Nat) :
    (∀ (cancel persistOk : Nat → Bool) (trace : List FetchResult) (i cur : Nat),
      ∀ b ∈ (run_window chronoParse cancel persistOk i cur trace).saveCalls, b ≠ []) ∧
    (∀ (persistOk : Bool) (b : List PredecessorMatch), b ≠ [] →
      save_matches chronoParse persistOk b ≠ SaveResult.panicEmpty) := by
  constructor
  · intro cancel persistOk trace i cur b hb
    exact c9_save_calls_nonempty_aux chronoParse cancel persistOk trace i cur b hb
  · intro persistOk b hne
    obtain ⟨m, ms, rfl⟩ := List.exists_cons_of_ne_nil hne
    unfold save_matches
    simp only [List.head?_cons]
    cases hg : (m :: ms).getLast? with
    | none => exact absurd (List.getLast?_eq_none_iff.mp hg) (by simp)
    | some lastM =>
      cases hpf : chronoParse m.end_time with
      | none => simp [hpf]
      | some f' =>
        cases hpl : chronoParse lastM.end_time with
        | none => simp [hpf, hpl]
        | some l' =>
          by_cases hpo : persistOk <;> simp [hpf, hpl, hpo]

/-- Witness for C9: in a concrete run the only `save_matches` call gets a
non-empty batch, and `save_matches` on that batch does not `panicEmpty`. -/
theorem c9_save_matches_never_empty_witness :
    [PredecessorMatch.mk "1970-01-01 00:00:50"] ≠ ([] : List PredecessorMatch) ∧
    save_matches chronoP true [PredecessorMatch.mk "not a timestamp"] ≠
      SaveResult.panicEmpty := by
  constructor
  · exact (c9_save_matches_never_empty chronoP).1 (fun _ => false) (fun _ => true)
      [FetchResult.ok [PredecessorMatch.mk "1970-01-01 00:00:50"], FetchResult.ok []] 0 0
      [PredecessorMatch.mk "1970-01-01 00:00:50"] (by decide)
  · exact (c9_save_matches_never_empty chronoP).2 true
      [PredecessorMatch.mk "not a timestamp"] (by decide)

/-- C10: at startup `main` removes the whole `matches` directory when it
exists and recreates it empty (`main.rs` lines 207–211), so every batch a
previous run persisted is destroyed, the run's behaviour is independent of
the directory's prior contents, and the final archive (`zip_matches` walks
the `matches` directory) contains exactly the batch files produced by the
current run. -/
theorem c10_startup_resets_matches_dir (chronoParse : String → Option Nat)
    (dispatchCancel : Nat → Bool) (cancel persistOk : Nat → Nat → Bool)
    (traces : Nat → List FetchResult) (windows : List WorkWindow)
    (prior : Option (List String)) :
    startup_matches_dir prior = [] ∧
    run_main chronoParse dispatchCancel cancel persistOk traces windows prior =
      run_main chronoParse dispatchCancel cancel persistOk traces windows none ∧
    run_main chronoParse dispatchCancel cancel persistOk traces windows prior =
      (if (run_all chronoParse dispatchCancel cancel persistOk traces 0 windows).any
          worker_panics then
        MainResult.panicked
          (((run_all chronoParse dispatchCancel cancel persistOk traces 0 windows).map
            saved_files).flatten)
      else
        MainResult.archived
          (((run_all chronoParse dispatchCancel cancel persistOk traces 0 windows).map
            saved_files).flatten)) := by
  have hst : startup_matches_dir prior = [] := by
    cases prior <;> rfl
  refine ⟨hst, by cases prior <;> rfl, ?_⟩
  cases prior <;>
    simp only [run_main, startup_matches_dir, List.nil_append]

end PredRipper
